import Mathlib

/-!
# Verification of the Maya2glTF animation-baking core

Shallow embedding of `NodeAnimation.cpp` (channel construction, per-frame
sampling, non-orthogonality tracking, and channel finalization) and
`ExportableClip.cpp` (the per-clip bake driver).  Floating-point scalars are
modelled as rationals; the control flow of the source is translated branch by
branch.  Parts of the repository that are not in the provided sources
(the `PropAnimation` buffer class and the `ExportableFrames` grid) are
modelled from the specification and marked as such in their doc comments.
-/

/-- Scalars of the source (`double` / `float`) modelled as rationals. -/
abbrev Scalar := ℚ

/-- `std::abs` on scalars. -/
def absScalar (x : Scalar) : Scalar := if x < 0 then -x else x

/-- `std::max` on scalars (`std::max(a, b)` returns `b` when `a < b`). -/
def maxScalar (a b : Scalar) : Scalar := if a < b then b else a

/-- Subtraction on scalars.  The library subtraction `Rat.sub` carries an
`irreducible` marking that blocks concrete evaluation in proofs, so the
embedding uses this kernel-computable form; `subScalar_eq` proves it is
exactly rational subtraction. -/
def subScalar (a b : Scalar) : Scalar :=
  mkRat (a.num * b.den - b.num * a.den) (a.den * b.den)

/-- Multiplication on scalars, kernel-computable form; `mulScalar_eq` proves
it is exactly rational multiplication. -/
def mulScalar (a b : Scalar) : Scalar := mkRat (a.num * b.num) (a.den * b.den)

theorem subScalar_eq (a b : Scalar) : subScalar a b = a - b := by
  unfold subScalar
  rw [Rat.mkRat_eq_divInt]
  push_cast
  conv_rhs => rw [← Rat.num_divInt_den a, ← Rat.num_divInt_den b]
  rw [Rat.divInt_sub_divInt _ _ (Int.natCast_ne_zero.mpr a.den_nz)
    (Int.natCast_ne_zero.mpr b.den_nz)]

theorem mulScalar_eq (a b : Scalar) : mulScalar a b = a * b := by
  unfold mulScalar
  rw [Rat.mkRat_eq_divInt]
  push_cast
  conv_rhs => rw [← Rat.num_divInt_den a, ← Rat.num_divInt_den b]
  rw [Rat.divInt_mul_divInt _ _ (Int.natCast_ne_zero.mpr a.den_nz)
    (Int.natCast_ne_zero.mpr b.den_nz)]

theorem absScalar_eq (x : Scalar) : absScalar x = |x| := by
  unfold absScalar
  rcases lt_or_le x 0 with h | h
  · rw [if_pos h, abs_of_neg h]
  · rw [if_neg (not_lt.mpr h), abs_of_nonneg h]

theorem maxScalar_eq (a b : Scalar) : maxScalar a b = max a b := by
  unfold maxScalar
  rcases lt_or_le a b with h | h
  · rw [if_pos h, max_eq_right h.le]
  · rw [if_neg (not_lt.mpr h), max_eq_left h]

/-- The two synthetic glTF nodes of an exportable node
(`node.glPrimaryNode()` / `node.glSecondaryNode()`). -/
inductive GLNodeId
  | primary
  | secondary
  deriving DecidableEq

/-- `GLTF::Animation::Path` — the targeted property of a channel. -/
inductive AnimPath
  | translation
  | rotation
  | scale
  | weights
  deriving DecidableEq

/-- `ExportableFrames`: the frame grid of one clip (count and relative
sample times in seconds). -/
structure ExportableFrames where
  count : Nat
  times : List Scalar
  deriving DecidableEq

/-- Modelled from the spec: `ExportableFrames` construction (§4.1 FrameGrid,
class not present in the provided sources): `times[i] = i / samplesPerSecond`,
failing with a configuration error if `frameCount < 1` or
`samplesPerSecond <= 0`. -/
def ExportableFrames.build (frameCount : Nat) (samplesPerSecond : Scalar) :
    Except String ExportableFrames :=
  if frameCount < 1 then Except.error "InvalidArgument: frameCount < 1"
  else if samplesPerSecond ≤ 0 then Except.error "InvalidArgument: samplesPerSecond <= 0"
  else Except.ok
    { count := frameCount
      times := (List.range frameCount).map fun i => (i : Scalar) / samplesPerSecond }

/-- A translation/rotation/scale triple (`Transform.h` TRS). -/
structure TRS where
  translation : List Scalar
  rotation : List Scalar
  scale : List Scalar
  deriving DecidableEq

/-- The decomposed local transform of one node at one frame
(`NodeTransformState`): the primary and secondary TRS plus the measured
non-orthogonality (shear) of the local matrix. -/
structure TransformState where
  primaryTRS : TRS
  secondaryTRS : TRS
  maxNonOrthogonality : Scalar
  deriving DecidableEq

/-- `TransformKind` of `ExportableNode`. -/
inductive TransformKind
  | Simple
  | ComplexJoint
  | ComplexTransform
  deriving DecidableEq

/-- The per-node data `NodeAnimation` reads from its `ExportableNode`:
name, transform kind, blend-shape count of its mesh (0 when there is no
mesh), the rest-pose transform state and rest weights. -/
structure ExportableNode where
  name : String
  transformKind : TransformKind
  blendShapeCount : Nat
  initialTransformState : TransformState
  initialWeights : List Scalar

/-- The configuration (`Arguments`) consumed by the sampling pipeline.
`stepDetectSampleCount` models `getStepDetectSampleCount()`. -/
structure Arguments where
  forceAnimationSampling : Bool
  forceAnimationChannels : Bool
  disableNameAssignment : Bool
  constantTranslationThreshold : Scalar
  constantRotationThreshold : Scalar
  constantScalingThreshold : Scalar
  constantWeightsThreshold : Scalar
  stepDetectSampleCount : Int
  bakeScaleFactor : Scalar

/-- Modelled from the spec: `PropAnimation` ("ChannelBuffer", §4.3; the class
itself is not in the provided sources, only its uses).  One append-only
sample buffer for one animated property.  `extraFlag` records the last
constructor argument of the C++ class, unused by the embedded logic. -/
structure PropAnimation where
  frames : ExportableFrames
  target : GLNodeId
  path : AnimPath
  dimension : Nat
  extraFlag : Bool
  componentValuesPerFrame : List Scalar
  deriving DecidableEq

/-- `PropAnimation` constructor: an empty buffer. -/
def PropAnimation.create (frames : ExportableFrames) (target : GLNodeId)
    (path : AnimPath) (dimension : Nat) (extraFlag : Bool) : PropAnimation :=
  { frames := frames, target := target, path := path, dimension := dimension
    extraFlag := extraFlag, componentValuesPerFrame := [] }

/-- Modelled from the spec: `PropAnimation::append` appends one frame block of
`dimension` floats (§4.3). -/
def PropAnimation.append (p : PropAnimation) (values : List Scalar) : PropAnimation :=
  { p with componentValuesPerFrame := p.componentValuesPerFrame ++ values }

/-- Modelled from the spec: `PropAnimation::appendQuaternion` is `append`
with no sign unwrapping performed (§4.3). -/
def PropAnimation.appendQuaternion (p : PropAnimation) (values : List Scalar) : PropAnimation :=
  p.append values

/-- One finalized output animation channel (`PropAnimation::glChannel`). -/
structure GLChannel where
  name : String
  target : GLNodeId
  path : AnimPath
  keyframeTimes : List Scalar
  keyframeValues : List Scalar
  deriving DecidableEq

/-- Modelled from the spec: `PropAnimation::finish(name, useSingleKey)`
(§4.3/§6): a single keyframe at time 0 holding one sample block when
`useSingleKey`, otherwise the full track with one keyframe per grid time. -/
def PropAnimation.finishChannel (p : PropAnimation) (channelName : String)
    (useSingleKey : Bool) : GLChannel :=
  if useSingleKey then
    { name := channelName, target := p.target, path := p.path
      keyframeTimes := [0]
      keyframeValues := p.componentValuesPerFrame.take p.dimension }
  else
    { name := channelName, target := p.target, path := p.path
      keyframeTimes := p.frames.times
      keyframeValues := p.componentValuesPerFrame }

/-- One pass of the inner loop of `NodeAnimation::finish`: frame block at
`offset` compared component-wise against `baseValues` with a strict `<`
against the threshold (the C++ asserts `dimension == baseValues.size()`;
out-of-range reads never occur under the buffer invariant). -/
def frameIsConstant (dimension : Nat) (baseValues componentValues : List Scalar)
    (offset : Nat) (threshold : Scalar) : Bool :=
  (List.range dimension).all fun index =>
    decide (absScalar
      (subScalar (baseValues.getD index 0) (componentValues.getD (offset + index) 0)) < threshold)

/-- The constancy loop of `NodeAnimation::finish`
(`for offset in steps of dimension while offset < size`): all frame blocks
within `threshold` of `baseValues`. -/
def isConstantSamples (dimension : Nat) (baseValues componentValues : List Scalar)
    (threshold : Scalar) : Bool :=
  (List.range ((componentValues.length + dimension - 1) / dimension)).all fun frame =>
    frameIsConstant dimension baseValues componentValues (frame * dimension) threshold

/-- The branch taken by one `NodeAnimation::finish` call. -/
inductive FinishOutcome
  | NoData
  | Dropped
  | SingleKeyframe
  | FullTrack
  | Unimplemented
  deriving DecidableEq

/-- Result of one `NodeAnimation::finish` call: the updated channel list of
the output animation, the surviving prop (`none` when released), and the
branch taken. -/
structure FinishStep where
  channels : List GLChannel
  prop : Option PropAnimation
  outcome : FinishOutcome
  deriving DecidableEq

/-- `NodeAnimation::finish`: drop a constant unforced channel, emit a single
keyframe for a constant channel that is forced but not force-sampled, emit the
full track when `detectStepSampleCount <= 1`, and otherwise fall into the
unimplemented curve-simplification branch, which emits nothing. -/
def finishProp (arguments : Arguments) (nodeName animationName : String)
    (channels : List GLChannel) (propName : String) (animatedProp : PropAnimation)
    (constantThreshold : Scalar) (detectStepSampleCount : Int)
    (baseValues : List Scalar) : FinishStep :=
  let dimension := animatedProp.dimension
  if dimension ≠ 0 then
    let isConstant := isConstantSamples dimension baseValues
      animatedProp.componentValuesPerFrame constantThreshold
    if isConstant && !arguments.forceAnimationSampling && !arguments.forceAnimationChannels then
      { channels := channels, prop := none, outcome := FinishOutcome.Dropped }
    else
      let useSingleKey := isConstant && !arguments.forceAnimationSampling
      if useSingleKey || decide (detectStepSampleCount ≤ 1) then
        let channelName :=
          if arguments.disableNameAssignment then ""
          else nodeName ++ "/anim/" ++ animationName ++ "/" ++ propName
        { channels := channels ++ [animatedProp.finishChannel channelName useSingleKey]
          prop := some animatedProp
          outcome := if useSingleKey then FinishOutcome.SingleKeyframe else FinishOutcome.FullTrack }
      else
        { channels := channels, prop := some animatedProp, outcome := FinishOutcome.Unimplemented }
  else
    { channels := channels, prop := some animatedProp, outcome := FinishOutcome.NoData }


/-- `MAX_NON_ORTHOGONALITY`, the fixed non-orthogonality tolerance compared with
`>` in `NodeAnimation::sampleAt`.  Modelled from the spec: the constant lives in
a header not among the provided sources; the spec's shear scenario uses a
1% orthogonality threshold. -/
def MAX_NON_ORTHOGONALITY : Scalar := mkRat 1 100

/-- `m_invalidLocalTransformTimes.reserve(10)`: the fixed capacity of the
offending-timestamp collector. -/
def invalidTimesCapacity : Nat := 10

/-- The mutable state of one `NodeAnimation` (one sampler per exportable
node): the optional `PropAnimation` buffers (`none` where the constructor did
not create one, or after `finish` released one), the bounded list of offending
sample times and the recorded worst non-orthogonality. -/
structure NodeAnimation where
  node : ExportableNode
  scaleFactor : Scalar
  blendShapeCount : Nat
  arguments : Arguments
  invalidLocalTransformTimes : List Scalar
  maxNonOrthogonality : Scalar
  positions : Option PropAnimation
  rotations : Option PropAnimation
  scales : Option PropAnimation
  correctors : Option PropAnimation
  dummyProps1 : Option PropAnimation
  dummyProps2 : Option PropAnimation
  weights : Option PropAnimation

/-- `NodeAnimation::NodeAnimation`: build the channel buffers of one node
according to its `TransformKind` (dummy buffers only under
`forceAnimationChannels`), plus a weights buffer when the node's mesh has
blend shapes. -/
def NodeAnimation.create (node : ExportableNode) (frames : ExportableFrames)
    (scaleFactor : Scalar) (arguments : Arguments) : NodeAnimation :=
  let base : NodeAnimation :=
    { node := node, scaleFactor := scaleFactor
      blendShapeCount := node.blendShapeCount, arguments := arguments
      invalidLocalTransformTimes := [], maxNonOrthogonality := 0
      positions := none, rotations := none, scales := none, correctors := none
      dummyProps1 := none, dummyProps2 := none, weights := none }
  let base :=
    match node.transformKind with
    | TransformKind.Simple =>
        { base with
          positions := some (PropAnimation.create frames GLNodeId.primary AnimPath.translation 3 false)
          rotations := some (PropAnimation.create frames GLNodeId.primary AnimPath.rotation 4 false)
          scales := some (PropAnimation.create frames GLNodeId.primary AnimPath.scale 3 false) }
    | TransformKind.ComplexJoint =>
        { base with
          positions := some (PropAnimation.create frames GLNodeId.secondary AnimPath.translation 3 false)
          rotations := some (PropAnimation.create frames GLNodeId.primary AnimPath.rotation 4 false)
          scales := some (PropAnimation.create frames GLNodeId.primary AnimPath.scale 3 false)
          correctors := some (PropAnimation.create frames GLNodeId.secondary AnimPath.scale 3 false)
          dummyProps1 :=
            if arguments.forceAnimationChannels then
              some (PropAnimation.create frames GLNodeId.primary AnimPath.translation 3 false)
            else none
          dummyProps2 :=
            if arguments.forceAnimationChannels then
              some (PropAnimation.create frames GLNodeId.secondary AnimPath.rotation 4 false)
            else none }
    | TransformKind.ComplexTransform =>
        { base with
          positions := some (PropAnimation.create frames GLNodeId.secondary AnimPath.translation 3 false)
          rotations := some (PropAnimation.create frames GLNodeId.secondary AnimPath.rotation 4 false)
          scales := some (PropAnimation.create frames GLNodeId.secondary AnimPath.scale 3 false)
          correctors := some (PropAnimation.create frames GLNodeId.primary AnimPath.translation 3 false)
          dummyProps1 :=
            if arguments.forceAnimationChannels then
              some (PropAnimation.create frames GLNodeId.primary AnimPath.scale 3 false)
            else none
          dummyProps2 :=
            if arguments.forceAnimationChannels then
              some (PropAnimation.create frames GLNodeId.primary AnimPath.rotation 4 false)
            else none }
  if 0 < node.blendShapeCount then
    { base with
      weights := some (PropAnimation.create frames GLNodeId.primary AnimPath.weights node.blendShapeCount true) }
  else base

/-- The non-orthogonality bookkeeping of `NodeAnimation::sampleAt`: when the
frame's deviation exceeds the tolerance AND the timestamp list still has spare
capacity, update the worst deviation and record the time. -/
def NodeAnimation.recordNonOrthogonality (na : NodeAnimation) (absoluteTime : Scalar)
    (transformState : TransformState) : NodeAnimation :=
  if transformState.maxNonOrthogonality > MAX_NON_ORTHOGONALITY ∧
      na.invalidLocalTransformTimes.length < invalidTimesCapacity then
    { na with
      maxNonOrthogonality := maxScalar na.maxNonOrthogonality transformState.maxNonOrthogonality
      invalidLocalTransformTimes := na.invalidLocalTransformTimes ++ [absoluteTime] }
  else na

/-- The channel-routing part of `NodeAnimation::sampleAt`: append the frame's
decomposed components into the buffers according to the node's
`TransformKind`, then the current weights when the mesh has blend shapes. -/
def NodeAnimation.appendBuffers (na : NodeAnimation) (transformState : TransformState)
    (currentWeights : List Scalar) : NodeAnimation :=
  let pTRS := transformState.primaryTRS
  let sTRS := transformState.secondaryTRS
  let na1 : NodeAnimation :=
    match na.node.transformKind with
    | TransformKind.Simple =>
        { na with
          positions := na.positions.map fun p => p.append pTRS.translation
          rotations := na.rotations.map fun p => p.appendQuaternion pTRS.rotation
          scales := na.scales.map fun p => p.append pTRS.scale }
    | TransformKind.ComplexJoint =>
        { na with
          positions := na.positions.map fun p => p.append sTRS.translation
          rotations := na.rotations.map fun p => p.appendQuaternion pTRS.rotation
          scales := na.scales.map fun p => p.append pTRS.scale
          correctors := na.correctors.map fun p => p.append sTRS.scale
          dummyProps1 :=
            if na.arguments.forceAnimationChannels then
              na.dummyProps1.map fun p => p.append pTRS.translation
            else na.dummyProps1
          dummyProps2 :=
            if na.arguments.forceAnimationChannels then
              na.dummyProps2.map fun p => p.appendQuaternion sTRS.rotation
            else na.dummyProps2 }
    | TransformKind.ComplexTransform =>
        { na with
          positions := na.positions.map fun p => p.append sTRS.translation
          rotations := na.rotations.map fun p => p.appendQuaternion sTRS.rotation
          scales := na.scales.map fun p => p.append sTRS.scale
          correctors := na.correctors.map fun p => p.append pTRS.translation
          dummyProps1 :=
            if na.arguments.forceAnimationChannels then
              na.dummyProps1.map fun p => p.append pTRS.scale
            else na.dummyProps1
          dummyProps2 :=
            if na.arguments.forceAnimationChannels then
              na.dummyProps2.map fun p => p.appendQuaternion pTRS.rotation
            else na.dummyProps2 }
  if na1.blendShapeCount ≠ 0 then
    { na1 with weights := na1.weights.map fun p => p.append currentWeights }
  else na1

/-- `NodeAnimation::sampleAt`: the transform state stands for
`transformCache.getTransform(&node, m_scaleFactor)` and the weights for
`mesh->currentWeights()` at the current scene time. -/
def NodeAnimation.sampleAt (na : NodeAnimation) (absoluteTime : Scalar)
    (transformState : TransformState) (currentWeights : List Scalar) : NodeAnimation :=
  (na.recordNonOrthogonality absoluteTime transformState).appendBuffers
    transformState currentWeights

/-- The data one frame presents to `sampleAt`: the scene time, the cached
decomposed transform and the mesh's current weights. -/
structure FrameSample where
  absoluteTime : Scalar
  transformState : TransformState
  currentWeights : List Scalar

/-- Folding `sampleAt` over a list of frames, in frame order. -/
def sampleRun (na : NodeAnimation) (samples : List FrameSample) : NodeAnimation :=
  samples.foldl (fun s x => s.sampleAt x.absoluteTime x.transformState x.currentWeights) na

/-- A frame whose cached transform exceeds the non-orthogonality tolerance
(the first conjunct of the recording condition of `sampleAt`). -/
def FrameSample.offending (x : FrameSample) : Bool :=
  decide (x.transformState.maxNonOrthogonality > MAX_NON_ORTHOGONALITY)

/-- One `finish(...)` call site inside `NodeAnimation::exportTo`: the prop
name tag, the (possibly absent) buffer, the constant threshold and the base
values the samples are compared against. -/
structure FinishCall where
  propName : String
  prop : Option PropAnimation
  threshold : Scalar
  baseValues : List Scalar

/-- Run one `finish` call site: a missing buffer contributes nothing,
otherwise `finishProp` updates the channel list and the outcome trace. -/
def finishStepOpt (arguments : Arguments) (nodeName animationName : String)
    (detectStepSampleCount : Int)
    (acc : List GLChannel × List (String × FinishOutcome)) (call : FinishCall) :
    List GLChannel × List (String × FinishOutcome) :=
  match call.prop with
  | none => acc
  | some p =>
      let r := finishProp arguments nodeName animationName acc.1 call.propName p
        call.threshold detectStepSampleCount call.baseValues
      (r.channels, acc.2 ++ [(call.propName, r.outcome)])

/-- The ordered `finish` call sites of `NodeAnimation::exportTo` for one
node: per `TransformKind`, then the dummy channels (threshold 0) under
`forceAnimationChannels`, then the weights channel when the mesh has blend
shapes. -/
def NodeAnimation.finishCalls (na : NodeAnimation) : List FinishCall :=
  let args := na.arguments
  let pTRS := na.node.initialTransformState.primaryTRS
  let sTRS := na.node.initialTransformState.secondaryTRS
  (match na.node.transformKind with
   | TransformKind.Simple =>
      [{ propName := "T", prop := na.positions
         threshold := args.constantTranslationThreshold, baseValues := pTRS.translation },
       { propName := "R", prop := na.rotations
         threshold := args.constantRotationThreshold, baseValues := pTRS.rotation },
       { propName := "S", prop := na.scales
         threshold := args.constantScalingThreshold, baseValues := pTRS.scale }]
   | TransformKind.ComplexJoint =>
      [{ propName := "T", prop := na.positions
         threshold := args.constantTranslationThreshold, baseValues := sTRS.translation },
       { propName := "R", prop := na.rotations
         threshold := args.constantRotationThreshold, baseValues := pTRS.rotation },
       { propName := "S", prop := na.scales
         threshold := args.constantScalingThreshold, baseValues := pTRS.scale },
       { propName := "C", prop := na.correctors
         threshold := args.constantScalingThreshold, baseValues := sTRS.scale }] ++
      (if args.forceAnimationChannels then
        [{ propName := "DT", prop := na.dummyProps1
           threshold := 0, baseValues := pTRS.translation },
         { propName := "DR", prop := na.dummyProps2
           threshold := 0, baseValues := sTRS.rotation }]
       else [])
   | TransformKind.ComplexTransform =>
      [{ propName := "T", prop := na.positions
         threshold := args.constantTranslationThreshold, baseValues := sTRS.translation },
       { propName := "R", prop := na.rotations
         threshold := args.constantRotationThreshold, baseValues := sTRS.rotation },
       { propName := "S", prop := na.scales
         threshold := args.constantScalingThreshold, baseValues := sTRS.scale },
       { propName := "C", prop := na.correctors
         threshold := args.constantScalingThreshold, baseValues := pTRS.translation }] ++
      (if args.forceAnimationChannels then
        [{ propName := "DS", prop := na.dummyProps1
           threshold := 0, baseValues := pTRS.scale },
         { propName := "DR", prop := na.dummyProps2
           threshold := 0, baseValues := pTRS.rotation }]
       else [])) ++
  (if na.blendShapeCount ≠ 0 then
    [{ propName := "W", prop := na.weights
       threshold := args.constantWeightsThreshold, baseValues := na.node.initialWeights }]
   else [])

/-- The finalization half of `NodeAnimation::exportTo`: run every `finish`
call site in order against the incoming channel list, collecting the branch
taken per prop name. -/
def NodeAnimation.finishAll (na : NodeAnimation) (animationName : String)
    (channels : List GLChannel) : List GLChannel × List (String × FinishOutcome) :=
  na.finishCalls.foldl
    (finishStepOpt na.arguments na.node.name animationName na.arguments.stepDetectSampleCount)
    (channels, [])

/-- The consolidated non-orthogonality warning printed by
`NodeAnimation::exportTo`: the node's name, the worst deviation scaled to a
percentage, and the recorded offending times. -/
structure OrthoWarning where
  nodeName : String
  worstDeviationPercent : Scalar
  invalidTimes : List Scalar
  deriving DecidableEq

/-- What one `NodeAnimation::exportTo` call produces: the optional warning
and the updated channel list of the output animation, with the per-prop
outcome trace. -/
structure ExportResult where
  warning : Option OrthoWarning
  channels : List GLChannel
  outcomes : List (String × FinishOutcome)
  deriving DecidableEq

/-- `NodeAnimation::exportTo`: warn once iff any offending transforms were
recorded (`!m_invalidLocalTransformTimes.empty()`), then finalize every
channel buffer into the output animation. -/
def NodeAnimation.exportTo (na : NodeAnimation) (animationName : String)
    (channels : List GLChannel) : ExportResult :=
  let warning :=
    if na.invalidLocalTransformTimes.isEmpty then none
    else some
      { nodeName := na.node.name
        worstDeviationPercent := mulScalar na.maxNonOrthogonality 100
        invalidTimes := na.invalidLocalTransformTimes }
  let r := na.finishAll animationName channels
  { warning := warning, channels := r.1, outcomes := r.2 }

/-- `AnimClipArg`: the parameters of one clip to bake. -/
structure AnimClipArg where
  name : String
  startTime : Scalar
  frameCount : Nat
  framesPerSecond : Scalar

/-- One entry of the scene's node table as `ExportableClip` consumes it:
`animatable = false` models `node->createAnimation` returning null; the two
functions model what the host scene reports for the node once the shared
time cursor has been advanced to a given absolute time. -/
structure SceneNode where
  node : ExportableNode
  animatable : Bool
  transformAt : Scalar → TransformState
  weightsAt : Scalar → List Scalar

/-- The output animation container (`GLTF::Animation`): name plus the
channels accumulated by the per-node `exportTo` calls. -/
structure AnimationClip where
  name : String
  channels : List GLChannel
  deriving DecidableEq

/-- `ExportableClip::ExportableClip`: build the frame grid, construct one
sampler per animatable node, iterate the frames in increasing time order
sampling every node at `startTime + relativeTime`, then export every sampler
into the shared output animation.  Progress reporting (a side channel) is not
modelled. -/
def bakeClip (args : Arguments) (clipArg : AnimClipArg) (scene : List SceneNode) :
    Except String AnimationClip :=
  match ExportableFrames.build clipArg.frameCount clipArg.framesPerSecond with
  | Except.error e => Except.error e
  | Except.ok frames =>
      let samplers : List (NodeAnimation × SceneNode) :=
        scene.filterMap fun sn =>
          if sn.animatable then
            some (NodeAnimation.create sn.node frames args.bakeScaleFactor args, sn)
          else none
      let sampled : List (NodeAnimation × SceneNode) :=
        frames.times.foldl
          (fun ss rel =>
            let t := clipArg.startTime + rel
            ss.map fun pr => (pr.1.sampleAt t (pr.2.transformAt t) (pr.2.weightsAt t), pr.2))
          samplers
      let channels : List GLChannel :=
        sampled.foldl (fun chs pr => (pr.1.exportTo clipArg.name chs).channels) []
      Except.ok { name := clipArg.name, channels := channels }

theorem sampleRun_nil (na : NodeAnimation) : sampleRun na [] = na := rfl

theorem sampleRun_cons (na : NodeAnimation) (x : FrameSample) (rest : List FrameSample) :
    sampleRun na (x :: rest) =
      sampleRun (na.sampleAt x.absoluteTime x.transformState x.currentWeights) rest := rfl

theorem appendBuffers_invalidTimes (na : NodeAnimation) (ts : TransformState)
    (w : List Scalar) :
    (na.appendBuffers ts w).invalidLocalTransformTimes = na.invalidLocalTransformTimes := by
  unfold NodeAnimation.appendBuffers
  rcases na with ⟨⟨nm, tk, bs, its, iw⟩, sf, bsc, args, inv, mno, pos, rot, sc, cor, d1, d2, wts⟩
  cases tk <;> dsimp only <;> split <;> rfl

theorem appendBuffers_maxNonOrthogonality (na : NodeAnimation) (ts : TransformState)
    (w : List Scalar) :
    (na.appendBuffers ts w).maxNonOrthogonality = na.maxNonOrthogonality := by
  unfold NodeAnimation.appendBuffers
  rcases na with ⟨⟨nm, tk, bs, its, iw⟩, sf, bsc, args, inv, mno, pos, rot, sc, cor, d1, d2, wts⟩
  cases tk <;> dsimp only <;> split <;> rfl

theorem sampleAt_invalidTimes (na : NodeAnimation) (t : Scalar) (ts : TransformState)
    (w : List Scalar) :
    (na.sampleAt t ts w).invalidLocalTransformTimes =
      if ts.maxNonOrthogonality > MAX_NON_ORTHOGONALITY ∧
          na.invalidLocalTransformTimes.length < invalidTimesCapacity
      then na.invalidLocalTransformTimes ++ [t]
      else na.invalidLocalTransformTimes := by
  unfold NodeAnimation.sampleAt
  rw [appendBuffers_invalidTimes]
  unfold NodeAnimation.recordNonOrthogonality
  split <;> rfl

theorem sampleAt_maxNonOrthogonality (na : NodeAnimation) (t : Scalar) (ts : TransformState)
    (w : List Scalar) :
    (na.sampleAt t ts w).maxNonOrthogonality =
      if ts.maxNonOrthogonality > MAX_NON_ORTHOGONALITY ∧
          na.invalidLocalTransformTimes.length < invalidTimesCapacity
      then maxScalar na.maxNonOrthogonality ts.maxNonOrthogonality
      else na.maxNonOrthogonality := by
  unfold NodeAnimation.sampleAt
  rw [appendBuffers_maxNonOrthogonality]
  unfold NodeAnimation.recordNonOrthogonality
  split <;> rfl

theorem sampleRun_tracking (samples : List FrameSample) :
    ∀ na : NodeAnimation,
      (sampleRun na samples).invalidLocalTransformTimes =
        na.invalidLocalTransformTimes ++
          (((samples.filter FrameSample.offending).take
            (invalidTimesCapacity - na.invalidLocalTransformTimes.length)).map
              fun x => x.absoluteTime) ∧
      (sampleRun na samples).maxNonOrthogonality =
        (((samples.filter FrameSample.offending).take
          (invalidTimesCapacity - na.invalidLocalTransformTimes.length)).map
            fun x => x.transformState.maxNonOrthogonality).foldl maxScalar
          na.maxNonOrthogonality := by
  induction samples with
  | nil => intro na; simp [sampleRun]
  | cons x rest ih =>
      intro na
      rw [sampleRun_cons]
      have hinv := sampleAt_invalidTimes na x.absoluteTime x.transformState x.currentWeights
      have hmax := sampleAt_maxNonOrthogonality na x.absoluteTime x.transformState x.currentWeights
      obtain ⟨ih1, ih2⟩ :=
        ih (na.sampleAt x.absoluteTime x.transformState x.currentWeights)
      by_cases hoff : x.transformState.maxNonOrthogonality > MAX_NON_ORTHOGONALITY
      · have hfil : (x :: rest).filter FrameSample.offending =
            x :: rest.filter FrameSample.offending := by
          simp [List.filter, FrameSample.offending, hoff]
        by_cases hcap :
            na.invalidLocalTransformTimes.length < invalidTimesCapacity
        · rw [if_pos ⟨hoff, hcap⟩] at hinv hmax
          have hlen : (na.sampleAt x.absoluteTime x.transformState
              x.currentWeights).invalidLocalTransformTimes.length =
              na.invalidLocalTransformTimes.length + 1 := by
            rw [hinv]; simp
          have hsub : invalidTimesCapacity - na.invalidLocalTransformTimes.length =
              (invalidTimesCapacity - (na.invalidLocalTransformTimes.length + 1)) + 1 := by
            omega
          constructor
          · rw [ih1, hlen, hinv, hfil, hsub, List.take_succ_cons, List.map_cons]
            simp
          · rw [ih2, hlen, hmax, hfil, hsub, List.take_succ_cons, List.map_cons,
              List.foldl_cons]
        · rw [if_neg (fun h => hcap h.2)] at hinv hmax
          have hsub : invalidTimesCapacity - na.invalidLocalTransformTimes.length = 0 := by
            omega
          have hlen : (na.sampleAt x.absoluteTime x.transformState
              x.currentWeights).invalidLocalTransformTimes.length =
              na.invalidLocalTransformTimes.length := by rw [hinv]
          constructor
          · rw [ih1, hlen, hinv, hfil, hsub]; simp
          · rw [ih2, hlen, hmax, hfil, hsub]; simp
      · have hfil : (x :: rest).filter FrameSample.offending =
            rest.filter FrameSample.offending := by
          simp [List.filter, FrameSample.offending, hoff]
        rw [if_neg (fun h => hoff h.1)] at hinv hmax
        have hlen : (na.sampleAt x.absoluteTime x.transformState
            x.currentWeights).invalidLocalTransformTimes.length =
            na.invalidLocalTransformTimes.length := by rw [hinv]
        constructor
        · rw [ih1, hlen, hinv, hfil]
        · rw [ih2, hlen, hmax, hfil]

theorem absScalar_nonneg (x : Scalar) : ¬ absScalar x < 0 := by
  rw [absScalar_eq]
  exact not_lt.mpr (abs_nonneg x)

theorem isConstantSamples_zero_threshold (d : Nat) (base vals : List Scalar)
    (hd : 0 < d) (hlen : d ≤ vals.length) :
    isConstantSamples d base vals 0 = false := by
  unfold isConstantSamples
  have hfr : 0 < (vals.length + d - 1) / d := Nat.div_pos (by omega) hd
  apply List.all_eq_false.mpr
  refine ⟨0, List.mem_range.mpr hfr, ?_⟩
  unfold frameIsConstant
  intro hall
  have h0 := List.all_eq_true.mp hall 0 (List.mem_range.mpr hd)
  rw [decide_eq_true_iff] at h0
  exact absScalar_nonneg _ h0

theorem filterMap_of_all_skipped {α β : Type} (p : α → Bool) (f : α → β) (l : List α)
    (h : l.all (fun x => !p x) = true) :
    (l.filterMap fun x => if p x then some (f x) else none) = [] := by
  induction l with
  | nil => rfl
  | cons a l ih =>
      rw [List.all_cons, Bool.and_eq_true] at h
      have ha : p a = false := by
        rcases h with ⟨h1, _⟩
        cases hpa : p a
        · rfl
        · rw [hpa] at h1; exact absurd h1 (by decide)
      rw [List.filterMap_cons, ha]
      exact ih h.2

theorem foldl_preserves_nil {α β : Type} (f : List α → β → List α)
    (h : ∀ b, f [] b = []) (l : List β) : l.foldl f [] = [] := by
  induction l with
  | nil => rfl
  | cons b l ih => rw [List.foldl_cons, h]; exact ih

/-- A baseline configuration for concrete runs: no force flags, channel
naming disabled, all constant thresholds 1, step detection inert. -/
def argsBase : Arguments :=
  { forceAnimationSampling := false, forceAnimationChannels := false
    disableNameAssignment := true
    constantTranslationThreshold := 1, constantRotationThreshold := 1
    constantScalingThreshold := 1, constantWeightsThreshold := 1
    stepDetectSampleCount := 1, bakeScaleFactor := 1 }

/-- A rest-pose TRS fixture. -/
def trsRest : TRS :=
  { translation := [0, 0, 0], rotation := [0, 0, 0, 1], scale := [1, 1, 1] }

/-- A rest-pose transform state fixture with no shear. -/
def tsRest : TransformState :=
  { primaryTRS := trsRest, secondaryTRS := trsRest, maxNonOrthogonality := 0 }

/-- A one-frame grid fixture. -/
def fr1 : ExportableFrames := { count := 1, times := [0] }

/-- A `Simple` node fixture without blend shapes. -/
def nodeSimpleA : ExportableNode :=
  { name := "simpleNode", transformKind := TransformKind.Simple
    blendShapeCount := 0, initialTransformState := tsRest, initialWeights := [] }

/-- A one-frame translation buffer whose sample equals the rest pose. -/
def propConstT : PropAnimation :=
  { frames := fr1, target := GLNodeId.primary, path := AnimPath.translation
    dimension := 3, extraFlag := false, componentValuesPerFrame := [0, 0, 0] }

/-- A one-frame translation buffer whose sample deviates from the rest pose
by 5 per component. -/
def propMoving : PropAnimation :=
  { frames := fr1, target := GLNodeId.primary, path := AnimPath.translation
    dimension := 3, extraFlag := false, componentValuesPerFrame := [5, 5, 5] }

/-- The Dropped branch of `NodeAnimation::finish`: constant buffer, both force
flags clear. -/
theorem finishProp_constant_dropped (arguments : Arguments) (nodeName animationName : String)
    (channels : List GLChannel) (propName : String) (animatedProp : PropAnimation)
    (constantThreshold : Scalar) (detectStepSampleCount : Int) (baseValues : List Scalar)
    (hd : animatedProp.dimension ≠ 0)
    (hc : isConstantSamples animatedProp.dimension baseValues
      animatedProp.componentValuesPerFrame constantThreshold = true)
    (hfs : arguments.forceAnimationSampling = false)
    (hfc : arguments.forceAnimationChannels = false) :
    finishProp arguments nodeName animationName channels propName animatedProp
      constantThreshold detectStepSampleCount baseValues =
      { channels := channels, prop := none, outcome := FinishOutcome.Dropped } := by
  simp [finishProp, hc, hfs, hfc, hd]

/-- C3: a channel buffer whose every sampled block matches `baseValues`
component-wise within `constantThreshold` is dropped by `finish` when neither
`forceAnimationSampling` nor `forceAnimationChannels` is set: the buffer is
released and no output channel is appended to the clip. -/
theorem claim_C3_constant_dropped (arguments : Arguments) (nodeName animationName : String)
    (channels : List GLChannel) (propName : String) (animatedProp : PropAnimation)
    (constantThreshold : Scalar) (detectStepSampleCount : Int) (baseValues : List Scalar)
    (hd : animatedProp.dimension ≠ 0)
    (hc : isConstantSamples animatedProp.dimension baseValues
      animatedProp.componentValuesPerFrame constantThreshold = true)
    (hfs : arguments.forceAnimationSampling = false)
    (hfc : arguments.forceAnimationChannels = false) :
    finishProp arguments nodeName animationName channels propName animatedProp
      constantThreshold detectStepSampleCount baseValues =
      { channels := channels, prop := none, outcome := FinishOutcome.Dropped } :=
  finishProp_constant_dropped arguments nodeName animationName channels propName
    animatedProp constantThreshold detectStepSampleCount baseValues hd hc hfs hfc

theorem claim_C3_witness :
    finishProp argsBase "node" "clip" [] "T" propConstT 1 1 [0, 0, 0] =
      { channels := [], prop := none, outcome := FinishOutcome.Dropped } :=
  claim_C3_constant_dropped argsBase "node" "clip" [] "T" propConstT 1 1 [0, 0, 0]
    (by decide) (by decide) rfl rfl

/-- Configuration with a step-detection sample count of 2 (the inert
curve-simplification branch becomes reachable). -/
def argsStep2 : Arguments := { argsBase with stepDetectSampleCount := 2 }

/-- C1 counterexample: a non-constant buffer (samples deviate from the base
values by more than the threshold) finalized under a step-detection sample
count of 2 appends NO output channel at all — the unimplemented
curve-simplification branch runs — contradicting the claim that a full
keyframe track is emitted regardless of the configured step-detection sample
count. -/
theorem claim_C1_counterexample :
    isConstantSamples propMoving.dimension [0, 0, 0]
      propMoving.componentValuesPerFrame 1 = false ∧
    (finishProp argsStep2 "node" "clip" [] "T" propMoving 1
      argsStep2.stepDetectSampleCount [0, 0, 0]).channels = [] ∧
    (finishProp argsStep2 "node" "clip" [] "T" propMoving 1
      argsStep2.stepDetectSampleCount [0, 0, 0]).outcome =
      FinishOutcome.Unimplemented := by
  refine ⟨by decide, by decide, by decide⟩

/-- The not-constant-or-force-sampled precondition shared by the FullTrack and
curve-skip branches of `NodeAnimation::finish`. -/
def notSingleKeyPre (arguments : Arguments) (animatedProp : PropAnimation)
    (constantThreshold : Scalar) (baseValues : List Scalar) : Prop :=
  isConstantSamples animatedProp.dimension baseValues
      animatedProp.componentValuesPerFrame constantThreshold = false ∨
    (isConstantSamples animatedProp.dimension baseValues
      animatedProp.componentValuesPerFrame constantThreshold = true ∧
      arguments.forceAnimationSampling = true)

/-- The FullTrack branch of `NodeAnimation::finish`: a buffer that is not
constant (or is force-sampled), finalized under a step-detection sample count
of at most 1, appends exactly one channel holding the whole sample buffer. -/
theorem finishProp_forced_full_track (arguments : Arguments)
    (nodeName animationName : String) (channels : List GLChannel) (propName : String)
    (animatedProp : PropAnimation) (constantThreshold : Scalar)
    (detectStepSampleCount : Int) (baseValues : List Scalar)
    (hd : animatedProp.dimension ≠ 0)
    (hne : notSingleKeyPre arguments animatedProp constantThreshold baseValues)
    (hstep : detectStepSampleCount ≤ 1) :
    finishProp arguments nodeName animationName channels propName animatedProp
      constantThreshold detectStepSampleCount baseValues =
      { channels := channels ++ [animatedProp.finishChannel
          (if arguments.disableNameAssignment then ""
           else nodeName ++ "/anim/" ++ animationName ++ "/" ++ propName) false]
        prop := some animatedProp
        outcome := FinishOutcome.FullTrack } := by
  have husk : (isConstantSamples animatedProp.dimension baseValues
      animatedProp.componentValuesPerFrame constantThreshold &&
      !arguments.forceAnimationSampling) = false := by
    rcases hne with h | ⟨h1, h2⟩
    · rw [h]; rfl
    · rw [h1, h2]; rfl
  have hcond : (isConstantSamples animatedProp.dimension baseValues
      animatedProp.componentValuesPerFrame constantThreshold &&
      !arguments.forceAnimationSampling &&
      !arguments.forceAnimationChannels) = false := by
    rcases hne with h | ⟨h1, h2⟩
    · rw [h]; rfl
    · rw [h1, h2]; rfl
  simp only [finishProp, hd, ne_eq, not_false_iff, if_true, hcond, husk,
    Bool.false_or, Bool.false_and, if_false, decide_eq_true_eq]
  rw [if_pos hstep]
  simp

/-- The unimplemented curve-simplification branch of `NodeAnimation::finish`:
same precondition but a step-detection sample count above 1 — nothing is
emitted. -/
theorem finishProp_curve_branch_skipped (arguments : Arguments)
    (nodeName animationName : String) (channels : List GLChannel) (propName : String)
    (animatedProp : PropAnimation) (constantThreshold : Scalar)
    (detectStepSampleCount : Int) (baseValues : List Scalar)
    (hd : animatedProp.dimension ≠ 0)
    (hne : notSingleKeyPre arguments animatedProp constantThreshold baseValues)
    (hstep : 1 < detectStepSampleCount) :
    finishProp arguments nodeName animationName channels propName animatedProp
      constantThreshold detectStepSampleCount baseValues =
      { channels := channels, prop := some animatedProp
        outcome := FinishOutcome.Unimplemented } := by
  have husk : (isConstantSamples animatedProp.dimension baseValues
      animatedProp.componentValuesPerFrame constantThreshold &&
      !arguments.forceAnimationSampling) = false := by
    rcases hne with h | ⟨h1, h2⟩
    · rw [h]; rfl
    · rw [h1, h2]; rfl
  have hcond : (isConstantSamples animatedProp.dimension baseValues
      animatedProp.componentValuesPerFrame constantThreshold &&
      !arguments.forceAnimationSampling &&
      !arguments.forceAnimationChannels) = false := by
    rcases hne with h | ⟨h1, h2⟩
    · rw [h]; rfl
    · rw [h1, h2]; rfl
  simp only [finishProp, hd, ne_eq, not_false_iff, if_true, hcond, husk,
    Bool.false_or, Bool.false_and, if_false, decide_eq_true_eq]
  rw [if_neg (not_le.mpr hstep)]
  simp

/-- C1 (amended): for a buffer whose samples are not all within
`constantThreshold` of `baseValues` (or that is constant but
`forceAnimationSampling` is set), `finish` emits a full keyframe track —
exactly one output channel holding all `frameCount` sampled keyframes —
provided the configured step-detection sample count is at most 1; when the
count exceeds 1 the unimplemented curve-simplification branch emits no
channel. -/
theorem claim_C1_full_track (arguments : Arguments) (nodeName animationName : String)
    (channels : List GLChannel) (propName : String) (animatedProp : PropAnimation)
    (constantThreshold : Scalar) (baseValues : List Scalar)
    (hd : animatedProp.dimension ≠ 0)
    (hne : isConstantSamples animatedProp.dimension baseValues
        animatedProp.componentValuesPerFrame constantThreshold = false ∨
      (isConstantSamples animatedProp.dimension baseValues
        animatedProp.componentValuesPerFrame constantThreshold = true ∧
        arguments.forceAnimationSampling = true))
    (htimes : animatedProp.frames.times.length = animatedProp.frames.count) :
    (arguments.stepDetectSampleCount ≤ 1 →
      ∃ ch : GLChannel,
        finishProp arguments nodeName animationName channels propName animatedProp
          constantThreshold arguments.stepDetectSampleCount baseValues =
          { channels := channels ++ [ch], prop := some animatedProp
            outcome := FinishOutcome.FullTrack } ∧
        ch.keyframeTimes.length = animatedProp.frames.count ∧
        ch.keyframeValues = animatedProp.componentValuesPerFrame) ∧
    (1 < arguments.stepDetectSampleCount →
      finishProp arguments nodeName animationName channels propName animatedProp
        constantThreshold arguments.stepDetectSampleCount baseValues =
        { channels := channels, prop := some animatedProp
          outcome := FinishOutcome.Unimplemented }) := by
  constructor
  · intro hstep
    refine ⟨animatedProp.finishChannel
      (if arguments.disableNameAssignment then ""
       else nodeName ++ "/anim/" ++ animationName ++ "/" ++ propName) false,
      finishProp_forced_full_track arguments nodeName animationName channels propName
        animatedProp constantThreshold arguments.stepDetectSampleCount baseValues
        hd hne hstep, ?_, ?_⟩
    · unfold PropAnimation.finishChannel
      rw [if_neg (by decide : ¬ (false : Bool) = true)]
      exact htimes
    · unfold PropAnimation.finishChannel
      rw [if_neg (by decide : ¬ (false : Bool) = true)]
  · intro hstep
    exact finishProp_curve_branch_skipped arguments nodeName animationName channels
      propName animatedProp constantThreshold arguments.stepDetectSampleCount baseValues
      hd hne hstep

theorem claim_C1_witness :
    ∃ ch : GLChannel,
      finishProp argsBase "node" "clip" [] "T" propMoving 1
        argsBase.stepDetectSampleCount [0, 0, 0] =
        { channels := [] ++ [ch], prop := some propMoving
          outcome := FinishOutcome.FullTrack } ∧
      ch.keyframeTimes.length = propMoving.frames.count ∧
      ch.keyframeValues = propMoving.componentValuesPerFrame :=
  (claim_C1_full_track argsBase "node" "clip" [] "T" propMoving 1 [0, 0, 0]
    (by decide) (Or.inl (by decide)) (by decide)).1 (by decide)

/-- C10: dummy channels exist only under `forceAnimationChannels` (the
constructor leaves both dummy buffers absent otherwise), and a `finish` call
with constant threshold 0 — as `exportTo` issues for the dummy channels —
never classifies a buffer with at least one sampled frame as constant (the
comparison is a strict `<` against 0), so such a channel is never dropped,
never reduced to a single keyframe, and yields a full keyframe track whenever
the step-detection sample count is at most 1. -/
theorem claim_C10_dummy_channels :
    (∀ (node : ExportableNode) (frames : ExportableFrames) (scaleFactor : Scalar)
        (arguments : Arguments),
      arguments.forceAnimationChannels = false →
      (NodeAnimation.create node frames scaleFactor arguments).dummyProps1 = none ∧
      (NodeAnimation.create node frames scaleFactor arguments).dummyProps2 = none) ∧
    (∀ (arguments : Arguments) (nodeName animationName : String)
        (channels : List GLChannel) (propName : String) (animatedProp : PropAnimation)
        (detectStepSampleCount : Int) (baseValues : List Scalar),
      0 < animatedProp.dimension →
      animatedProp.dimension ≤ animatedProp.componentValuesPerFrame.length →
      isConstantSamples animatedProp.dimension baseValues
        animatedProp.componentValuesPerFrame 0 = false ∧
      (finishProp arguments nodeName animationName channels propName animatedProp 0
        detectStepSampleCount baseValues).outcome ≠ FinishOutcome.Dropped ∧
      (finishProp arguments nodeName animationName channels propName animatedProp 0
        detectStepSampleCount baseValues).outcome ≠ FinishOutcome.SingleKeyframe ∧
      (detectStepSampleCount ≤ 1 →
        (finishProp arguments nodeName animationName channels propName animatedProp 0
          detectStepSampleCount baseValues).outcome = FinishOutcome.FullTrack)) := by
  constructor
  · intro node frames scaleFactor arguments hfc
    unfold NodeAnimation.create
    cases node.transformKind <;> dsimp only <;> split <;> simp [hfc]
  · intro arguments nodeName animationName channels propName animatedProp
      detectStepSampleCount baseValues hd hlen
    have hdim : animatedProp.dimension ≠ 0 := Nat.pos_iff_ne_zero.mp hd
    have hc := isConstantSamples_zero_threshold animatedProp.dimension baseValues
      animatedProp.componentValuesPerFrame hd hlen
    have houtcome : (finishProp arguments nodeName animationName channels propName
        animatedProp 0 detectStepSampleCount baseValues).outcome =
        if detectStepSampleCount ≤ 1 then FinishOutcome.FullTrack
        else FinishOutcome.Unimplemented := by
      simp only [finishProp, hc, Bool.false_and, Bool.false_or, Bool.false_eq_true,
        if_false, hdim, ne_eq, not_false_iff, if_true]
      rw [apply_ite FinishStep.outcome]
      simp
    refine ⟨hc, ?_, ?_, ?_⟩
    · rw [houtcome]; split <;> simp
    · rw [houtcome]; split <;> simp
    · intro hstep
      rw [houtcome, if_pos hstep]

theorem claim_C10_witness :
    ((NodeAnimation.create nodeSimpleA fr1 1 argsBase).dummyProps1 = none ∧
     (NodeAnimation.create nodeSimpleA fr1 1 argsBase).dummyProps2 = none) ∧
    (isConstantSamples propMoving.dimension [0, 0, 0]
      propMoving.componentValuesPerFrame 0 = false ∧
     (finishProp argsBase "node" "clip" [] "DT" propMoving 0 1 [0, 0, 0]).outcome ≠
       FinishOutcome.Dropped ∧
     (finishProp argsBase "node" "clip" [] "DT" propMoving 0 1 [0, 0, 0]).outcome ≠
       FinishOutcome.SingleKeyframe ∧
     ((1 : Int) ≤ 1 →
       (finishProp argsBase "node" "clip" [] "DT" propMoving 0 1 [0, 0, 0]).outcome =
         FinishOutcome.FullTrack)) :=
  ⟨claim_C10_dummy_channels.1 nodeSimpleA fr1 1 argsBase rfl,
   claim_C10_dummy_channels.2 argsBase "node" "clip" [] "DT" propMoving 1 [0, 0, 0]
     (by decide) (by decide)⟩

/-- A frame whose decomposed transform is the rest pose except for a shear
deviation `dev`, sampled at time `t`. -/
def shearFrame (t dev : Scalar) : FrameSample :=
  { absoluteTime := t
    transformState :=
      { primaryTRS := trsRest, secondaryTRS := trsRest, maxNonOrthogonality := dev }
    currentWeights := [] }

/-- A freshly constructed sampler for the Simple fixture node. -/
def naC4 : NodeAnimation := NodeAnimation.create nodeSimpleA fr1 1 argsBase

/-- A sampler whose offending-timestamp list is already at capacity. -/
def naFull : NodeAnimation :=
  { NodeAnimation.create nodeSimpleA fr1 1 argsBase with
    invalidLocalTransformTimes := [1, 2, 3, 4, 5, 6, 7, 8, 9, 10]
    maxNonOrthogonality := 2 }

/-- C8: the offending-timestamp list never grows beyond the fixed capacity of
10: any run of `sampleAt` keeps its length at most the capacity, and once the
list is full no further timestamps are appended, however many sampled frames
exceed the tolerance. -/
theorem claim_C8_bounded_capacity (na : NodeAnimation) (samples : List FrameSample)
    (h : na.invalidLocalTransformTimes.length ≤ invalidTimesCapacity) :
    (sampleRun na samples).invalidLocalTransformTimes.length ≤ invalidTimesCapacity ∧
    (na.invalidLocalTransformTimes.length = invalidTimesCapacity →
      (sampleRun na samples).invalidLocalTransformTimes =
        na.invalidLocalTransformTimes) := by
  obtain ⟨h1, _⟩ := sampleRun_tracking samples na
  constructor
  · rw [h1, List.length_append, List.length_map]
    have hle := List.length_take_le
      (invalidTimesCapacity - na.invalidLocalTransformTimes.length)
      (samples.filter FrameSample.offending)
    omega
  · intro hfull
    rw [h1, hfull, Nat.sub_self]
    simp

theorem claim_C8_witness :
    (sampleRun naFull [shearFrame 11 4, shearFrame 12 4]).invalidLocalTransformTimes.length ≤
      invalidTimesCapacity ∧
    (naFull.invalidLocalTransformTimes.length = invalidTimesCapacity →
      (sampleRun naFull [shearFrame 11 4, shearFrame 12 4]).invalidLocalTransformTimes =
        naFull.invalidLocalTransformTimes) :=
  claim_C8_bounded_capacity naFull [shearFrame 11 4, shearFrame 12 4] (by decide)

/-- Eleven offending frames: the worst deviation (5) arrives only on the
eleventh frame, after the timestamp list is already full. -/
def c4Samples : List FrameSample :=
  [shearFrame 0 2, shearFrame 1 2, shearFrame 2 2, shearFrame 3 2, shearFrame 4 2,
   shearFrame 5 2, shearFrame 6 2, shearFrame 7 2, shearFrame 8 2, shearFrame 9 2,
   shearFrame 10 5]

/-- C4 counterexample: after sampling eleven offending frames whose worst
deviation (5) arrives on the eleventh, the recorded worst deviation is 2, not
the maximum over every offending frame (5): the worst deviation is only
updated while the offending-timestamp list has spare capacity, because the
update sits inside the capacity check in `NodeAnimation::sampleAt`. -/
theorem claim_C4_counterexample :
    (sampleRun naC4 c4Samples).maxNonOrthogonality ≠
      ((c4Samples.filter FrameSample.offending).map
        (fun x => x.transformState.maxNonOrthogonality)).foldl maxScalar 0 := by
  decide

/-- C4 (amended): starting from a fresh sampler, the recorded worst deviation
equals the maximum `maxNonOrthogonality` over only the first
`invalidTimesCapacity` offending frames (those sampled while the timestamp
list still had spare capacity), and the recorded timestamps are exactly the
times of those frames; later offending frames update neither. -/
theorem claim_C4_worst_deviation (na : NodeAnimation) (samples : List FrameSample)
    (h0 : na.invalidLocalTransformTimes = []) (h1 : na.maxNonOrthogonality = 0) :
    (sampleRun na samples).maxNonOrthogonality =
      (((samples.filter FrameSample.offending).take invalidTimesCapacity).map
        (fun x => x.transformState.maxNonOrthogonality)).foldl maxScalar 0 ∧
    (sampleRun na samples).invalidLocalTransformTimes =
      ((samples.filter FrameSample.offending).take invalidTimesCapacity).map
        (fun x => x.absoluteTime) := by
  obtain ⟨ht, hm⟩ := sampleRun_tracking samples na
  rw [h0, h1] at hm
  rw [h0] at ht
  rw [List.length_nil, Nat.sub_zero] at ht hm
  rw [List.nil_append] at ht
  exact ⟨hm, ht⟩

theorem claim_C4_witness :
    (sampleRun naC4 [shearFrame 0 2]).maxNonOrthogonality =
      ((([shearFrame 0 2].filter FrameSample.offending).take invalidTimesCapacity).map
        (fun x => x.transformState.maxNonOrthogonality)).foldl maxScalar 0 ∧
    (sampleRun naC4 [shearFrame 0 2]).invalidLocalTransformTimes =
      (([shearFrame 0 2].filter FrameSample.offending).take invalidTimesCapacity).map
        (fun x => x.absoluteTime) :=
  claim_C4_worst_deviation naC4 [shearFrame 0 2] rfl rfl

/-- 1 when a channel buffer is present, 0 when absent. -/
def optBufCount (o : Option PropAnimation) : Nat := if o.isSome then 1 else 0

/-- The number of `PropAnimation` buffers a sampler holds. -/
def NodeAnimation.channelBufferCount (na : NodeAnimation) : Nat :=
  optBufCount na.positions + optBufCount na.rotations + optBufCount na.scales +
    optBufCount na.correctors + optBufCount na.dummyProps1 +
    optBufCount na.dummyProps2 + optBufCount na.weights

/-- C6: the buffers constructed by `NodeAnimation::NodeAnimation` match the
decomposition-kind table: a `Simple` node gets exactly 3 (T, R, S), a
`ComplexJoint` node under `forceAnimationChannels` gets exactly 6
(T, R, S, C, DT, DR), and in every case one extra weights buffer exists iff
the node's mesh has at least one blend shape. -/
theorem claim_C6_buffer_counts (node : ExportableNode) (frames : ExportableFrames)
    (scaleFactor : Scalar) (arguments : Arguments) :
    ((NodeAnimation.create node frames scaleFactor arguments).weights.isSome ↔
      0 < node.blendShapeCount) ∧
    (node.transformKind = TransformKind.Simple →
      (NodeAnimation.create node frames scaleFactor arguments).channelBufferCount =
        3 + (if 0 < node.blendShapeCount then 1 else 0)) ∧
    (node.transformKind = TransformKind.ComplexJoint →
      arguments.forceAnimationChannels = true →
      (NodeAnimation.create node frames scaleFactor arguments).channelBufferCount =
        6 + (if 0 < node.blendShapeCount then 1 else 0)) := by
  refine ⟨?_, ?_, ?_⟩
  · unfold NodeAnimation.create
    cases node.transformKind <;> dsimp only <;> split <;> simp_all
  · intro hk
    unfold NodeAnimation.create
    rw [hk]
    dsimp only
    split <;> simp [NodeAnimation.channelBufferCount, optBufCount]
  · intro hk hfc
    unfold NodeAnimation.create
    rw [hk]
    dsimp only
    rw [hfc]
    split <;> simp [NodeAnimation.channelBufferCount, optBufCount]

/-- A `ComplexJoint` node fixture with two blend shapes. -/
def nodeCJ : ExportableNode :=
  { name := "jointNode", transformKind := TransformKind.ComplexJoint
    blendShapeCount := 2, initialTransformState := tsRest, initialWeights := [0, 0] }

/-- A `ComplexTransform` node fixture without blend shapes. -/
def nodeCT : ExportableNode :=
  { name := "pivotNode", transformKind := TransformKind.ComplexTransform
    blendShapeCount := 0, initialTransformState := tsRest, initialWeights := [] }

/-- The baseline configuration with `forceAnimationChannels` set. -/
def argsFC : Arguments := { argsBase with forceAnimationChannels := true }

theorem claim_C6_witness :
    (NodeAnimation.create nodeSimpleA fr1 1 argsBase).channelBufferCount =
      3 + (if 0 < nodeSimpleA.blendShapeCount then 1 else 0) ∧
    (NodeAnimation.create nodeCJ fr1 1 argsFC).channelBufferCount =
      6 + (if 0 < nodeCJ.blendShapeCount then 1 else 0) :=
  ⟨(claim_C6_buffer_counts nodeSimpleA fr1 1 argsBase).2.1 rfl,
   (claim_C6_buffer_counts nodeCJ fr1 1 argsFC).2.2 rfl rfl⟩

theorem create_projections (node : ExportableNode) (frames : ExportableFrames)
    (scaleFactor : Scalar) (arguments : Arguments) :
    (NodeAnimation.create node frames scaleFactor arguments).node = node ∧
    (NodeAnimation.create node frames scaleFactor arguments).arguments = arguments ∧
    (NodeAnimation.create node frames scaleFactor arguments).blendShapeCount =
      node.blendShapeCount ∧
    (NodeAnimation.create node frames scaleFactor arguments).invalidLocalTransformTimes = [] ∧
    (NodeAnimation.create node frames scaleFactor arguments).maxNonOrthogonality = 0 := by
  unfold NodeAnimation.create
  cases node.transformKind <;> dsimp only <;> split <;> simp

theorem record_preserves_buffers (na : NodeAnimation) (t : Scalar) (ts : TransformState) :
    (na.recordNonOrthogonality t ts).node = na.node ∧
    (na.recordNonOrthogonality t ts).arguments = na.arguments ∧
    (na.recordNonOrthogonality t ts).blendShapeCount = na.blendShapeCount ∧
    (na.recordNonOrthogonality t ts).positions = na.positions ∧
    (na.recordNonOrthogonality t ts).rotations = na.rotations ∧
    (na.recordNonOrthogonality t ts).scales = na.scales ∧
    (na.recordNonOrthogonality t ts).correctors = na.correctors ∧
    (na.recordNonOrthogonality t ts).dummyProps1 = na.dummyProps1 ∧
    (na.recordNonOrthogonality t ts).dummyProps2 = na.dummyProps2 ∧
    (na.recordNonOrthogonality t ts).weights = na.weights := by
  unfold NodeAnimation.recordNonOrthogonality
  split <;> simp

theorem create_complex_transform_buffers (node : ExportableNode)
    (frames : ExportableFrames) (scaleFactor : Scalar) (arguments : Arguments)
    (hk : node.transformKind = TransformKind.ComplexTransform) :
    (NodeAnimation.create node frames scaleFactor arguments).positions =
      some (PropAnimation.create frames GLNodeId.secondary AnimPath.translation 3 false) ∧
    (NodeAnimation.create node frames scaleFactor arguments).rotations =
      some (PropAnimation.create frames GLNodeId.secondary AnimPath.rotation 4 false) ∧
    (NodeAnimation.create node frames scaleFactor arguments).scales =
      some (PropAnimation.create frames GLNodeId.secondary AnimPath.scale 3 false) ∧
    (NodeAnimation.create node frames scaleFactor arguments).correctors =
      some (PropAnimation.create frames GLNodeId.primary AnimPath.translation 3 false) := by
  unfold NodeAnimation.create
  rw [hk]
  dsimp only
  split <;> simp

theorem appendBuffers_complex_transform (na : NodeAnimation) (ts : TransformState)
    (w : List Scalar) (hk : na.node.transformKind = TransformKind.ComplexTransform) :
    (na.appendBuffers ts w).positions =
      na.positions.map (fun p => p.append ts.secondaryTRS.translation) ∧
    (na.appendBuffers ts w).rotations =
      na.rotations.map (fun p => p.appendQuaternion ts.secondaryTRS.rotation) ∧
    (na.appendBuffers ts w).scales =
      na.scales.map (fun p => p.append ts.secondaryTRS.scale) ∧
    (na.appendBuffers ts w).correctors =
      na.correctors.map (fun p => p.append ts.primaryTRS.translation) := by
  unfold NodeAnimation.appendBuffers
  rw [hk]
  dsimp only
  split <;> simp

/-- A decomposed transform whose primary and secondary TRS differ in every
component, to make the routing observable. -/
def tsSplit : TransformState :=
  { primaryTRS :=
      { translation := [0, 0, 0], rotation := [0, 0, 0, 1], scale := [1, 1, 1] }
    secondaryTRS :=
      { translation := [7, 0, 0], rotation := [1, 0, 0, 0], scale := [2, 2, 2] }
    maxNonOrthogonality := 0 }

/-- C5 counterexample: sampling a `ComplexTransform` node at a transform whose
primary and secondary TRS differ shows the rotation buffer receives the
SECONDARY rotation — the same TRS the translation buffer reads — so rotation
and scale do not read from the TRS opposite to the one translation reads
from. -/
theorem claim_C5_counterexample :
    (((NodeAnimation.create nodeCT fr1 1 argsBase).sampleAt 0 tsSplit []).positions.map
      (fun p => p.componentValuesPerFrame)) = some tsSplit.secondaryTRS.translation ∧
    (((NodeAnimation.create nodeCT fr1 1 argsBase).sampleAt 0 tsSplit []).rotations.map
      (fun p => p.componentValuesPerFrame)) = some tsSplit.secondaryTRS.rotation ∧
    (((NodeAnimation.create nodeCT fr1 1 argsBase).sampleAt 0 tsSplit []).scales.map
      (fun p => p.componentValuesPerFrame)) = some tsSplit.secondaryTRS.scale ∧
    tsSplit.primaryTRS.rotation ≠ tsSplit.secondaryTRS.rotation ∧
    tsSplit.primaryTRS.scale ≠ tsSplit.secondaryTRS.scale ∧
    tsSplit.primaryTRS.translation ≠ tsSplit.secondaryTRS.translation := by
  refine ⟨by decide, by decide, by decide, by decide, by decide, by decide⟩

/-- C5 (amended): for a `ComplexTransform` node, translation, rotation and
scale are ALL routed from the secondary TRS (relative to ComplexJoint, only
rotation and scale change TRS; translation stays on the secondary), and the
corrective channel targets the primary glTF node with a translation path,
carrying the primary TRS's translation, instead of ComplexJoint's secondary
scale. -/
theorem claim_C5_complex_transform_routing (node : ExportableNode)
    (frames : ExportableFrames) (scaleFactor : Scalar) (arguments : Arguments)
    (t : Scalar) (ts : TransformState) (w : List Scalar)
    (hk : node.transformKind = TransformKind.ComplexTransform) :
    (((NodeAnimation.create node frames scaleFactor arguments).sampleAt t ts w).positions.map
      (fun p => p.componentValuesPerFrame)) = some ts.secondaryTRS.translation ∧
    (((NodeAnimation.create node frames scaleFactor arguments).sampleAt t ts w).rotations.map
      (fun p => p.componentValuesPerFrame)) = some ts.secondaryTRS.rotation ∧
    (((NodeAnimation.create node frames scaleFactor arguments).sampleAt t ts w).scales.map
      (fun p => p.componentValuesPerFrame)) = some ts.secondaryTRS.scale ∧
    (((NodeAnimation.create node frames scaleFactor arguments).sampleAt t ts w).correctors.map
      (fun p => p.componentValuesPerFrame)) = some ts.primaryTRS.translation ∧
    ((NodeAnimation.create node frames scaleFactor arguments).correctors.map
      (fun p => (p.target, p.path))) = some (GLNodeId.primary, AnimPath.translation) := by
  obtain ⟨hn, _, _, _, _⟩ :=
    create_projections node frames scaleFactor arguments
  obtain ⟨hb1, hb2, hb3, hb4⟩ :=
    create_complex_transform_buffers node frames scaleFactor arguments hk
  obtain ⟨hrn, _, _, hr1, hr2, hr3, hr4, _, _, _⟩ :=
    record_preserves_buffers (NodeAnimation.create node frames scaleFactor arguments) t ts
  have hk2 : ((NodeAnimation.create node frames scaleFactor
      arguments).recordNonOrthogonality t ts).node.transformKind =
      TransformKind.ComplexTransform := by rw [hrn, hn, hk]
  obtain ⟨ha1, ha2, ha3, ha4⟩ :=
    appendBuffers_complex_transform
      ((NodeAnimation.create node frames scaleFactor arguments).recordNonOrthogonality t ts)
      ts w hk2
  unfold NodeAnimation.sampleAt
  rw [ha1, ha2, ha3, ha4, hr1, hr2, hr3, hr4, hb1, hb2, hb3, hb4]
  simp [PropAnimation.create, PropAnimation.append, PropAnimation.appendQuaternion]

theorem claim_C5_witness :
    (((NodeAnimation.create nodeCT fr1 1 argsBase).sampleAt 0 tsSplit []).positions.map
      (fun p => p.componentValuesPerFrame)) = some tsSplit.secondaryTRS.translation ∧
    (((NodeAnimation.create nodeCT fr1 1 argsBase).sampleAt 0 tsSplit []).rotations.map
      (fun p => p.componentValuesPerFrame)) = some tsSplit.secondaryTRS.rotation ∧
    (((NodeAnimation.create nodeCT fr1 1 argsBase).sampleAt 0 tsSplit []).scales.map
      (fun p => p.componentValuesPerFrame)) = some tsSplit.secondaryTRS.scale ∧
    (((NodeAnimation.create nodeCT fr1 1 argsBase).sampleAt 0 tsSplit []).correctors.map
      (fun p => p.componentValuesPerFrame)) = some tsSplit.primaryTRS.translation ∧
    ((NodeAnimation.create nodeCT fr1 1 argsBase).correctors.map
      (fun p => (p.target, p.path))) = some (GLNodeId.primary, AnimPath.translation) :=
  claim_C5_complex_transform_routing nodeCT fr1 1 argsBase 0 tsSplit [] rfl

/-- The same sampler with its non-orthogonality records erased (statement
vocabulary for independence of the finalization from the warning state). -/
def NodeAnimation.clearNonOrthogonality (na : NodeAnimation) : NodeAnimation :=
  { na with invalidLocalTransformTimes := [], maxNonOrthogonality := 0 }

/-- C7: `exportTo` emits the consolidated warning — naming the node, the worst
deviation scaled to a percentage, and the recorded offending timestamps — if
and only if at least one non-orthogonal transform was recorded during
sampling; the emitted channels and outcomes do not depend on the recorded
warnings, and recording a non-orthogonal frame never alters any channel
buffer, so sampling never fails due to non-orthogonality. -/
theorem claim_C7_warning (na : NodeAnimation) (animationName : String)
    (channels : List GLChannel) :
    ((na.exportTo animationName channels).warning.isSome =
      !na.invalidLocalTransformTimes.isEmpty) ∧
    (na.invalidLocalTransformTimes ≠ [] →
      (na.exportTo animationName channels).warning =
        some { nodeName := na.node.name
               worstDeviationPercent := mulScalar na.maxNonOrthogonality 100
               invalidTimes := na.invalidLocalTransformTimes }) ∧
    ((na.exportTo animationName channels).channels =
      (na.clearNonOrthogonality.exportTo animationName channels).channels ∧
     (na.exportTo animationName channels).outcomes =
      (na.clearNonOrthogonality.exportTo animationName channels).outcomes) ∧
    (∀ (t : Scalar) (ts : TransformState),
      (na.recordNonOrthogonality t ts).positions = na.positions ∧
      (na.recordNonOrthogonality t ts).rotations = na.rotations ∧
      (na.recordNonOrthogonality t ts).scales = na.scales ∧
      (na.recordNonOrthogonality t ts).correctors = na.correctors ∧
      (na.recordNonOrthogonality t ts).dummyProps1 = na.dummyProps1 ∧
      (na.recordNonOrthogonality t ts).dummyProps2 = na.dummyProps2 ∧
      (na.recordNonOrthogonality t ts).weights = na.weights) := by
  refine ⟨?_, ?_, ⟨rfl, rfl⟩, ?_⟩
  · simp only [NodeAnimation.exportTo]
    split <;> simp_all
  · intro hne
    have he : na.invalidLocalTransformTimes.isEmpty = false := by
      simpa using hne
    simp only [NodeAnimation.exportTo, he]
    rfl
  · intro t ts
    obtain ⟨_, _, _, h4, h5, h6, h7, h8, h9, h10⟩ := record_preserves_buffers na t ts
    exact ⟨h4, h5, h6, h7, h8, h9, h10⟩

theorem claim_C7_witness :
    (naFull.exportTo "clip" []).warning =
      some { nodeName := naFull.node.name
             worstDeviationPercent := mulScalar naFull.maxNonOrthogonality 100
             invalidTimes := naFull.invalidLocalTransformTimes } :=
  (claim_C7_warning naFull "clip" []).2.1 (by decide)

theorem finishCalls_simple (na : NodeAnimation)
    (hk : na.node.transformKind = TransformKind.Simple)
    (hb : na.blendShapeCount = 0) :
    na.finishCalls =
      [{ propName := "T", prop := na.positions
         threshold := na.arguments.constantTranslationThreshold
         baseValues := na.node.initialTransformState.primaryTRS.translation },
       { propName := "R", prop := na.rotations
         threshold := na.arguments.constantRotationThreshold
         baseValues := na.node.initialTransformState.primaryTRS.rotation },
       { propName := "S", prop := na.scales
         threshold := na.arguments.constantScalingThreshold
         baseValues := na.node.initialTransformState.primaryTRS.scale }] := by
  unfold NodeAnimation.finishCalls
  rw [hk, hb]
  simp

/-- C2 (amended): for a `Simple`-decomposition sampler whose three buffers are
all constant within their thresholds against the node's rest pose, `exportTo`
drops all three channels (no channel added) when `forceAnimationSampling` and
`forceAnimationChannels` are both clear, and emits three FULL tracks — not
single keyframes — when `forceAnimationSampling` is set (and the
step-detection sample count is at most 1). -/
theorem claim_C2_simple_constant (na : NodeAnimation) (p r s : PropAnimation)
    (animationName : String) (channels : List GLChannel)
    (hk : na.node.transformKind = TransformKind.Simple)
    (hb : na.blendShapeCount = 0)
    (hp : na.positions = some p) (hr : na.rotations = some r) (hs : na.scales = some s)
    (hdp : p.dimension ≠ 0) (hdr : r.dimension ≠ 0) (hds : s.dimension ≠ 0)
    (hcp : isConstantSamples p.dimension
      na.node.initialTransformState.primaryTRS.translation
      p.componentValuesPerFrame na.arguments.constantTranslationThreshold = true)
    (hcr : isConstantSamples r.dimension
      na.node.initialTransformState.primaryTRS.rotation
      r.componentValuesPerFrame na.arguments.constantRotationThreshold = true)
    (hcs : isConstantSamples s.dimension
      na.node.initialTransformState.primaryTRS.scale
      s.componentValuesPerFrame na.arguments.constantScalingThreshold = true) :
    (na.arguments.forceAnimationSampling = false →
     na.arguments.forceAnimationChannels = false →
      (na.exportTo animationName channels).outcomes =
        [("T", FinishOutcome.Dropped), ("R", FinishOutcome.Dropped),
         ("S", FinishOutcome.Dropped)] ∧
      (na.exportTo animationName channels).channels = channels) ∧
    (na.arguments.forceAnimationSampling = true →
     na.arguments.stepDetectSampleCount ≤ 1 →
      (na.exportTo animationName channels).outcomes =
        [("T", FinishOutcome.FullTrack), ("R", FinishOutcome.FullTrack),
         ("S", FinishOutcome.FullTrack)] ∧
      (na.exportTo animationName channels).channels.length = channels.length + 3) := by
  constructor
  · intro hfs hfc
    have h1 := finishProp_constant_dropped na.arguments na.node.name animationName
      channels "T" p na.arguments.constantTranslationThreshold
      na.arguments.stepDetectSampleCount
      na.node.initialTransformState.primaryTRS.translation hdp hcp hfs hfc
    have h2 := finishProp_constant_dropped na.arguments na.node.name animationName
      channels "R" r na.arguments.constantRotationThreshold
      na.arguments.stepDetectSampleCount
      na.node.initialTransformState.primaryTRS.rotation hdr hcr hfs hfc
    have h3 := finishProp_constant_dropped na.arguments na.node.name animationName
      channels "S" s na.arguments.constantScalingThreshold
      na.arguments.stepDetectSampleCount
      na.node.initialTransformState.primaryTRS.scale hds hcs hfs hfc
    unfold NodeAnimation.exportTo NodeAnimation.finishAll
    rw [finishCalls_simple na hk hb]
    simp only [List.foldl_cons, List.foldl_nil, finishStepOpt, hp, hr, hs, h1, h2, h3]
    constructor <;> simp
  · intro hfs hstep
    have h1 := finishProp_forced_full_track na.arguments na.node.name animationName
      channels "T" p na.arguments.constantTranslationThreshold
      na.arguments.stepDetectSampleCount
      na.node.initialTransformState.primaryTRS.translation hdp
      (Or.inr ⟨hcp, hfs⟩) hstep
    have h2 := finishProp_forced_full_track na.arguments na.node.name animationName
      (channels ++ [p.finishChannel
        (if na.arguments.disableNameAssignment then ""
         else na.node.name ++ "/anim/" ++ animationName ++ "/" ++ "T") false])
      "R" r na.arguments.constantRotationThreshold
      na.arguments.stepDetectSampleCount
      na.node.initialTransformState.primaryTRS.rotation hdr
      (Or.inr ⟨hcr, hfs⟩) hstep
    have h3 := finishProp_forced_full_track na.arguments na.node.name animationName
      ((channels ++ [p.finishChannel
        (if na.arguments.disableNameAssignment then ""
         else na.node.name ++ "/anim/" ++ animationName ++ "/" ++ "T") false]) ++
       [r.finishChannel
        (if na.arguments.disableNameAssignment then ""
         else na.node.name ++ "/anim/" ++ animationName ++ "/" ++ "R") false])
      "S" s na.arguments.constantScalingThreshold
      na.arguments.stepDetectSampleCount
      na.node.initialTransformState.primaryTRS.scale hds
      (Or.inr ⟨hcs, hfs⟩) hstep
    unfold NodeAnimation.exportTo NodeAnimation.finishAll
    rw [finishCalls_simple na hk hb]
    simp only [List.foldl_cons, List.foldl_nil, finishStepOpt, hp, hr, hs, h1, h2, h3]
    refine ⟨rfl, ?_⟩
    simp [List.length_append]

/-- The baseline configuration with `forceAnimationSampling` set. -/
def argsFS : Arguments := { argsBase with forceAnimationSampling := true }

/-- A Simple-node sampler (forceAnimationSampling on) after one rest-pose
frame: every buffer is constant within threshold. -/
def naC2 : NodeAnimation := (NodeAnimation.create nodeSimpleA fr1 1 argsFS).sampleAt 0 tsRest []

/-- A Simple-node sampler (no force flags) after one rest-pose frame. -/
def naC2b : NodeAnimation :=
  (NodeAnimation.create nodeSimpleA fr1 1 argsBase).sampleAt 0 tsRest []

/-- C2 counterexample: a Simple node whose sampled transform is constant
within threshold, finalized with `forceAnimationSampling = true`, yields three
FullTrack outcomes — not SingleKeyframe — because `useSingleKey` is
`isConstant && !forceAnimationSampling`, which is false under force-sampling. -/
theorem claim_C2_counterexample :
    (naC2.positions.map fun p => isConstantSamples p.dimension
      nodeSimpleA.initialTransformState.primaryTRS.translation
      p.componentValuesPerFrame argsFS.constantTranslationThreshold) = some true ∧
    (naC2.rotations.map fun p => isConstantSamples p.dimension
      nodeSimpleA.initialTransformState.primaryTRS.rotation
      p.componentValuesPerFrame argsFS.constantRotationThreshold) = some true ∧
    (naC2.scales.map fun p => isConstantSamples p.dimension
      nodeSimpleA.initialTransformState.primaryTRS.scale
      p.componentValuesPerFrame argsFS.constantScalingThreshold) = some true ∧
    (naC2.exportTo "clip" []).outcomes =
      [("T", FinishOutcome.FullTrack), ("R", FinishOutcome.FullTrack),
       ("S", FinishOutcome.FullTrack)] ∧
    (naC2.exportTo "clip" []).outcomes ≠
      [("T", FinishOutcome.SingleKeyframe), ("R", FinishOutcome.SingleKeyframe),
       ("S", FinishOutcome.SingleKeyframe)] := by
  refine ⟨by decide, by decide, by decide, by decide, by decide⟩

/-- The rotation buffer of `naC2b` after its single rest-pose frame. -/
def propConstR : PropAnimation :=
  { frames := fr1, target := GLNodeId.primary, path := AnimPath.rotation
    dimension := 4, extraFlag := false, componentValuesPerFrame := [0, 0, 0, 1] }

/-- The scale buffer of `naC2b` after its single rest-pose frame. -/
def propConstS : PropAnimation :=
  { frames := fr1, target := GLNodeId.primary, path := AnimPath.scale
    dimension := 3, extraFlag := false, componentValuesPerFrame := [1, 1, 1] }

theorem claim_C2_witness :
    (naC2b.exportTo "clip" []).outcomes =
      [("T", FinishOutcome.Dropped), ("R", FinishOutcome.Dropped),
       ("S", FinishOutcome.Dropped)] ∧
    (naC2b.exportTo "clip" []).channels = [] :=
  (claim_C2_simple_constant naC2b propConstT propConstR propConstS "clip" []
    (by decide) (by decide) (by decide) (by decide) (by decide)
    (by decide) (by decide) (by decide)
    (by decide) (by decide) (by decide)).1 rfl rfl

/-- C9: baking a clip over a scene with no exportable nodes, or where every
node reports not animatable, succeeds (given valid frame-grid arguments) and
returns a clip carrying the clip's name and zero output channels. -/
theorem claim_C9_empty_scene (args : Arguments) (clipArg : AnimClipArg)
    (scene : List SceneNode)
    (h1 : 1 ≤ clipArg.frameCount) (h2 : 0 < clipArg.framesPerSecond)
    (h3 : scene.all (fun sn => !sn.animatable) = true) :
    bakeClip args clipArg scene =
      Except.ok { name := clipArg.name, channels := [] } := by
  have hb : ExportableFrames.build clipArg.frameCount clipArg.framesPerSecond =
      Except.ok { count := clipArg.frameCount
                  times := (List.range clipArg.frameCount).map
                    fun i => (i : Scalar) / clipArg.framesPerSecond } := by
    unfold ExportableFrames.build
    rw [if_neg (by omega : ¬ clipArg.frameCount < 1), if_neg (not_le.mpr h2)]
  unfold bakeClip
  rw [hb]
  dsimp only
  rw [filterMap_of_all_skipped (fun sn => sn.animatable) _ scene h3]
  rw [foldl_preserves_nil _ (fun b => rfl)
    ((List.range clipArg.frameCount).map fun i => (i : Scalar) / clipArg.framesPerSecond)]
  rfl

/-- A minimal clip argument fixture: one frame at 24 samples per second. -/
def clipW : AnimClipArg :=
  { name := "walk", startTime := 0, frameCount := 1, framesPerSecond := 24 }

theorem claim_C9_witness :
    bakeClip argsBase clipW [] = Except.ok { name := clipW.name, channels := [] } :=
  claim_C9_empty_scene argsBase clipW [] (by decide) (by decide) rfl
